import Mathlib

/-!
Shallow embedding of the payment-reconciliation and order-fulfillment core of
`src/bot.py` (an eSIM Telegram bot backed by a sqlite database with two tables,
`orders` and `balances`).

Modelling conventions:
* Money amounts (`REAL` columns, USDT prices) are embedded as `Rat`.
* The sqlite store is an explicit `DB` value threaded through each handler.
* Telegram user ids are embedded as `String` (the `user_id` columns are `TEXT`).
* External I/O (the tronscan feed, the esimaccess provider) is passed to each
  embedded handler as an explicit argument describing the observed response,
  so a handler run is a pure function of the store and the observed responses.
* `random.choices` (memo generation) is nondeterministic; the generated memo is
  an explicit argument of every handler that calls `generate_memo()`.
-/

/-- A row of the `orders` table (`src/bot.py` lines 40-51):
`id INTEGER PRIMARY KEY AUTOINCREMENT, user_id TEXT, username TEXT,
amount REAL, memo TEXT, plan_id TEXT, paid INTEGER DEFAULT 0, order_no TEXT`.
Note: the schema has no UNIQUE constraint on `memo`. -/
structure OrderRow where
  id : Nat
  user_id : String
  username : String
  amount : Rat
  memo : String
  plan_id : String
  paid : Bool
  order_no : Option String
deriving Repr, DecidableEq

/-- The sqlite database: the `orders` table (rows in insertion order, ids
assigned by AUTOINCREMENT via `nextId`) and the `balances` table
(`user_id TEXT PRIMARY KEY, balance REAL DEFAULT 0`). -/
structure DB where
  orders : List OrderRow
  nextId : Nat
  balances : List (String × Rat)
deriving Repr, DecidableEq

/-- `SELECT balance FROM balances WHERE user_id=?`, defaulting to `0.0` when no
row exists (`bal = row[0] if row else 0.0`). -/
def getBalance (db : DB) (uid : String) : Rat :=
  match db.balances.find? (fun p => p.1 = uid) with
  | some p => p.2
  | none => 0

/-- `UPDATE balances SET balance=? WHERE user_id=?`: rewrites the value of the
existing row for `uid`; a missing row is left missing (sqlite UPDATE touches
no rows then). -/
def updateBalance (db : DB) (uid : String) (v : Rat) : DB :=
  { db with balances := db.balances.map (fun p => if p.1 = uid then (p.1, v) else p) }

/-- `INSERT INTO balances(user_id,balance) VALUES(?,?) ON CONFLICT(user_id) DO
UPDATE SET balance=balance+?` (the admin branch of `topup`,
`src/bot.py` lines 500-504). -/
def adminTopup (db : DB) (tgt : String) (amt : Rat) : DB :=
  if db.balances.any (fun p => p.1 = tgt) then
    { db with balances := db.balances.map (fun p => if p.1 = tgt then (p.1, p.2 + amt) else p) }
  else
    { db with balances := db.balances ++ [(tgt, amt)] }

/-- `INSERT INTO orders (user_id,username,amount,memo,plan_id) VALUES(?,?,?,?,?)`:
appends a fresh row with `paid = 0`, `order_no = NULL` and the next
AUTOINCREMENT id.  It never fails: the schema has no unique index on `memo`,
so a colliding memo is stored like any other. -/
def insertOrder (db : DB) (uid uname : String) (amount : Rat) (memo plan : String) : DB :=
  { db with
      orders := db.orders ++ [⟨db.nextId, uid, uname, amount, memo, plan, false, none⟩]
      nextId := db.nextId + 1 }

/-- `UPDATE orders SET memo=?,order_no=?,paid=1 WHERE user_id=? AND plan_id=?
AND paid=0` (`src/bot.py` lines 348-351 and 428-431): every unpaid row of this
user and plan gets its memo overwritten, the provider order number recorded and
`paid` set; no row is inserted. -/
def markPaid (db : DB) (uid plan memo orderNo : String) : DB :=
  { db with
      orders := db.orders.map (fun o =>
        if o.user_id = uid ∧ o.plan_id = plan ∧ o.paid = false then
          { o with memo := memo, order_no := some orderNo, paid := true }
        else o) }

/-- The fixed minimum chargeable amount: `if price_usd < 5.0: price_usd = 5.0`. -/
def floorPrice (p : Rat) : Rat := if p < 5 then 5 else p

/-- The provider's allocation records are opaque dictionaries to the handlers;
we model the bounded polling loop over an abstract per-attempt query result. -/
structure PollResult (α : Type) where
  profiles : List α
  attempts : Nat
  sleepSeconds : Nat
deriving Repr, DecidableEq

/-- The fixed retry budget of the allocation poll (`for _ in range(15)`). -/
def pollRetryBudget : Nat := 15

/-- The fixed spacing of the allocation poll in seconds (`time.sleep(2)`). -/
def pollRetrySleepSeconds : Nat := 2

/-- One pass of the polling loop body starting at attempt index `i` with `n`
iterations left: query; on a non-empty result break (no sleep), otherwise
sleep 2 seconds and continue.  Mirrors
`for _ in range(15): profiles = query_esim_open(order_no=order_no);
if profiles: break; time.sleep(2)` — when every attempt comes back empty the
loop ends with `profiles` empty. -/
def pollAux {α : Type} (query : Nat → List α) : Nat → Nat → PollResult α
  | _, 0 => ⟨[], 0, 0⟩
  | i, n + 1 =>
      let r := query i
      if r.isEmpty then
        let rest := pollAux query (i + 1) n
        ⟨rest.profiles, rest.attempts + 1, rest.sleepSeconds + pollRetrySleepSeconds⟩
      else ⟨r, 1, 0⟩

/-- The full allocation-status polling loop of the purchase handlers
(`src/bot.py` lines 353-358 and 433-438), as a function of the sequence of
observed `query_esim_open` results per attempt. -/
def pollEsim {α : Type} (query : Nat → List α) : PollResult α :=
  pollAux query 0 pollRetryBudget

/-- What a purchase-handler run surfaces to the user (the replies sent at the
end of each control-flow branch of `pkg_handler` / `topup_plan_handler`). -/
inductive Outcome (α : Type) where
  | awaitPayment (memo : String) (amount : Rat)
  | orderFailed
  | profilesPending (orderNo : String)
  | profilesDelivered (orderNo : String) (profiles : List α)
deriving Repr, DecidableEq

/-- The purchase flow shared verbatim (up to reply wording) by `pkg_handler`
(`src/bot.py` lines 317-365) and `topup_plan_handler` (lines 397-443):
floor the price at 5.0; read the balance; if it does not cover the price,
insert an `awaiting_payment` order and surface payment instructions; otherwise
write back the decremented balance, submit to the provider (`order_esim_open`,
whose observed result is the argument `orderResult`), on a missing order
number surface failure (leaving the deduction in place and the store
otherwise untouched), on success mark unpaid rows of this user and plan paid
and poll for allocated profiles. -/
def purchaseFlow {α : Type} (db : DB) (uid uname plan : String) (price0 : Rat)
    (memo : String) (orderResult : Option String) (query : Nat → List α) :
    DB × Outcome α :=
  let price := floorPrice price0
  let bal := getBalance db uid
  if bal < price then
    (insertOrder db uid uname price memo plan, .awaitPayment memo price)
  else
    let db1 := updateBalance db uid (bal - price)
    match orderResult with
    | none => (db1, .orderFailed)
    | some orderNo =>
        let db2 := markPaid db1 uid plan memo orderNo
        let r := pollEsim query
        if r.profiles.isEmpty then (db2, .profilesPending orderNo)
        else (db2, .profilesDelivered orderNo r.profiles)

/-- `pkg_handler` (`src/bot.py` lines 317-365): the BASE-plan purchase
callback.  Its database and control-flow behaviour is exactly `purchaseFlow`. -/
def pkg_handler {α : Type} : DB → String → String → String → Rat → String →
    Option String → (Nat → List α) → DB × Outcome α :=
  purchaseFlow

/-- `topup_plan_handler` (`src/bot.py` lines 397-443): the TOPUP-plan purchase
callback; line for line the same store logic as `pkg_handler`, only the reply
texts differ. -/
def topup_plan_handler {α : Type} : DB → String → String → String → Rat → String →
    Option String → (Nat → List α) → DB × Outcome α :=
  purchaseFlow

/-- The parsed `context.args` of the `/topup` command. -/
inductive TopupArgs where
  | adminCredit (tgt : String) (amt : Rat)
  | request (amt : Rat)
  | other
deriving Repr, DecidableEq

/-- `topup` (`src/bot.py` lines 495-523): with two arguments and an admin
caller, an unconditional upsert credit (`balance = balance + amt`, no sign
check, no floor); with one argument, insert a top-up order for the raw
requested amount (note: no 5.0 minimum is applied on this path) with
`plan_id = "TOPUP"`; otherwise only a usage message, no store change. -/
def topup (db : DB) (uid uname : String) (isAdmin : Bool) (args : TopupArgs)
    (memo : String) : DB :=
  match args with
  | .adminCredit tgt amt => if isAdmin then adminTopup db tgt amt else db
  | .request amt => insertOrder db uid uname amt memo "TOPUP"
  | .other => db

/-- `check` (`src/bot.py` lines 470-485): `SELECT order_no FROM orders WHERE
user_id=? AND paid=1 AND order_no IS NOT NULL ORDER BY id DESC LIMIT 1` —
the stored order number of the user's paid order with the largest id, if any. -/
def checkLastOrder (db : DB) (uid : String) : Option String :=
  (db.orders.filter (fun o => o.user_id = uid ∧ o.paid = true ∧ o.order_no ≠ none)).foldl
    (fun acc o =>
      match acc with
      | none => some o
      | some b => if b.id < o.id then some o else some b) none
    |>.bind (fun o => o.order_no)

/-!
## The TRON payment matcher (`check_tron_payment`, `src/bot.py` lines 110-124)
-/

/-- Python's `a in b` substring test on `Char` lists: does `hay` start with
`needle`? -/
def startsWithChars : List Char → List Char → Bool
  | [], _ => true
  | _ :: _, [] => false
  | a :: as, b :: bs => a = b && startsWithChars as bs

/-- Does `hay` contain `needle` as a contiguous sublist? -/
def containsChars (needle : List Char) : List Char → Bool
  | [] => startsWithChars needle []
  | b :: bs => startsWithChars needle (b :: bs) || containsChars needle bs

/-- Python's substring containment `needle in hay` on strings. -/
def strContains (hay needle : String) : Bool :=
  containsChars needle.data hay.data

/-- One transaction of the tronscan feed as `check_tron_payment` reads it:
`note` is `tx.get("data")` (`none` when the key is absent), `amountStr` is
`tx["tokenTransferInfo"]["amount_str"]` parsed by `float` (`none` when the
path is missing or unparseable, in which case the Python code raises inside
the `try` block). -/
structure TronTx where
  note : Option String
  amountStr : Option Rat
deriving Repr, DecidableEq

/-- The observed outcome of the feed fetch: `fetchError` covers a network
error, timeout or unparseable body of the `requests.get(url, timeout=5).json()`
call; `ok` carries the feed's recent-first transaction list, of which the
request's `limit=20` query parameter delivers only the first
`tronFetchLimit`. -/
inductive FeedResult where
  | fetchError
  | ok (txs : List TronTx)
deriving Repr, DecidableEq

/-- The `limit=20` query parameter of the tronscan request. -/
def tronFetchLimit : Nat := 20

/-- The scan loop of `check_tron_payment` over the fetched transactions:
skip a transaction whose `data` field is absent or falsy (the empty string)
or does not contain the memo; on a memo hit, parse the amount — an
unparseable amount raises, aborting the whole call with `0.0` — divide by
`1e6` and return it if within `0.01` of the expectation, else keep
scanning. -/
def scanTronTxs (memo : String) (expected : Rat) : List TronTx → Rat
  | [] => 0
  | tx :: rest =>
      match tx.note with
      | none => scanTronTxs memo expected rest
      | some s =>
          if s ≠ "" ∧ strContains s memo = true then
            match tx.amountStr with
            | none => 0
            | some raw =>
                let amt := raw / 1000000
                if |amt - expected| < 1 / 100 then amt
                else scanTronTxs memo expected rest
          else scanTronTxs memo expected rest

/-- `check_tron_payment(memo, expected)` (`src/bot.py` lines 110-124) as a
function of the observed feed outcome: `0.0` on any fetch error, otherwise the
scan of the (at most 20) returned transactions. -/
def check_tron_payment (memo : String) (expected : Rat) : FeedResult → Rat
  | .fetchError => 0
  | .ok txs => scanTronTxs memo expected (txs.take tronFetchLimit)

/-- The spec's §4.3 matching rule for one transaction: its note field contains
the memo as a substring, and its display-unit amount is within the absolute
tolerance of the expectation.  Stated from the spec's words for comparison
with `check_tron_payment`. -/
def specTxMatches (memo : String) (expected : Rat) (tx : TronTx) : Bool :=
  (match tx.note with
   | some s => strContains s memo
   | none => false) &&
  (match tx.amountStr with
   | some raw => decide (|raw / 1000000 - expected| < 1 / 100)
   | none => false)

/-- The Payment Matcher as §4.3 of the spec words it: the amount of the first
transaction of the window that matches, or `0` when no transaction of the
window matches.  Stated from the spec's words for comparison with
`check_tron_payment`. -/
def specMatchPayment (memo : String) (expected : Rat) (txs : List TronTx) : Rat :=
  match txs.find? (specTxMatches memo expected) with
  | some tx => (tx.amountStr.getD 0) / 1000000
  | none => 0

/-!
## The provider allocation query (`query_esim_open`, `src/bot.py` lines 204-215)
-/

/-- Dynamically-typed JSON values, for the provider responses the Python code
navigates with `.get`. -/
inductive Json where
  | null
  | bool (b : Bool)
  | num (q : Rat)
  | str (s : String)
  | arr (xs : List Json)
  | obj (fields : List (String × Json))

/-- Is this JSON value a list?  (Python `list`.) -/
def Json.isList : Json → Bool
  | .arr _ => true
  | _ => false

/-- Python `dict.get(k)` on the field list of a JSON object (first binding
wins, as in a dict there is at most one). -/
def jsonGet (fields : List (String × Json)) (k : String) : Option Json :=
  match fields.find? (fun p => p.1 = k) with
  | some p => some p.2
  | none => none

/-- The observed outcome of the provider POST: `netError` covers a raised
network error or timeout; `reply status body` an HTTP reply, with `body = none`
when the payload is not valid JSON (`r.json()` raises). -/
inductive HttpOutcome where
  | netError
  | reply (status : Nat) (body : Option Json)

/-- `query_esim_open` (`src/bot.py` lines 204-215) as a function of the
observed HTTP outcome.  Inside one `try`: `r.raise_for_status()` raises on a
4xx/5xx status; `r.json()` raises on a non-JSON body; `.get("obj", {})`
raises `AttributeError` when the parsed body is not a dict, as does
`.get("esimList", [])` when the `obj` value is not a dict; any raise is
caught and `[]` returned.  Otherwise the value of the `esimList` key — of
whatever JSON type it happens to be — is returned, defaulting to `[]` when
the key (or `obj`) is absent. -/
def query_esim_open (resp : HttpOutcome) : Json :=
  match resp with
  | .netError => .arr []
  | .reply status body =>
      if 400 ≤ status then .arr []
      else
        match body with
        | none => .arr []
        | some (.obj fields) =>
            match (jsonGet fields "obj").getD (.obj []) with
            | .obj f2 => (jsonGet f2 "esimList").getD (.arr [])
            | _ => .arr []
        | some _ => .arr []

/-!
## The Balance Credit Service (spec §4.4)

`ReconcileOrder` has no counterpart in `src/bot.py`: the matcher
`check_tron_payment` is defined there but never called, and no handler ever
transitions an `awaiting_payment` order to paid on an observed payment.  The
definitions below are therefore modelled from the spec (§3, §4.1, §4.4).
-/

/-- The order statuses of spec §3. -/
inductive SpecStatus where
  | awaiting_payment
  | paid
  | submitted
  | allocated
  | failed
deriving Repr, DecidableEq

/-- An order record as spec §3 describes it (the fields `ReconcileOrder`
touches). -/
structure SpecOrder where
  id : Nat
  user_id : String
  requested_amount : Rat
  memo : String
  status : SpecStatus
deriving Repr, DecidableEq

/-- The Ledger Store state of spec §4.1. -/
structure SpecLedger where
  orders : List SpecOrder
  balances : List (String × Rat)
deriving Repr, DecidableEq

/-- Modelled from the spec: `GetBalance(user_id) -> amount`, `0` if absent
(§4.1). -/
def specGetBalance (st : SpecLedger) (u : String) : Rat :=
  match st.balances.find? (fun p => p.1 = u) with
  | some p => p.2
  | none => 0

/-- Modelled from the spec: `AdjustBalance(user_id, delta)` of §4.1 —
`amount += delta` upserted atomically, rejected (`InvariantViolation`,
embedded as `none`) when the result would go negative. -/
def specAdjustBalance (st : SpecLedger) (u : String) (delta : Rat) :
    Option SpecLedger :=
  let cur := specGetBalance st u
  if cur + delta < 0 then none
  else if st.balances.any (fun p => p.1 = u) then
    some { st with balances := st.balances.map (fun p =>
      if p.1 = u then (p.1, p.2 + delta) else p) }
  else
    some { st with balances := st.balances ++ [(u, cur + delta)] }

/-- Modelled from the spec: `TransitionOrder(order_id, expected_status,
new_status)` of §4.1 — a compare-and-swap that only rewrites the order when
its stored status equals the expectation (a mismatch, `StaleTransition`, is
absorbed by the caller as a no-op). -/
def specTransitionOrder (st : SpecLedger) (oid : Nat)
    (expected new : SpecStatus) : SpecLedger :=
  { st with orders := st.orders.map (fun o =>
      if o.id = oid ∧ o.status = expected then { o with status := new } else o) }

/-- Modelled from the spec: `ReconcileOrder(order_id)` of §4.4 — load the
order; if its status is not `awaiting_payment`, no-op; otherwise run the
Payment Matcher (an explicit argument, as it consults the external feed) on
the order's memo and requested amount; on a positive match, mark the order
paid by compare-and-swap and credit the matched amount to the user's
balance. -/
def ReconcileOrder (matcher : String → Rat → Rat) (st : SpecLedger)
    (oid : Nat) : SpecLedger :=
  match st.orders.find? (fun o => o.id = oid) with
  | none => st
  | some o =>
      if o.status ≠ SpecStatus.awaiting_payment then st
      else
        let m := matcher o.memo o.requested_amount
        if 0 < m then
          let st1 := specTransitionOrder st oid .awaiting_payment .paid
          match specAdjustBalance st1 o.user_id m with
          | some st2 => st2
          | none => st1
        else st

/-!
## Claim theorems
-/

/-- C1 (code bug at the failing input): user `"7"` holds balance `10.00` and
buys plan `"P1"` at `list_price = 7.00`; the balance covers it, so the handler
deducts first; the provider submission then returns no order number.  The code
surfaces `❌ Order failed` but leaves the balance at `3.00` — there is no
compensating credit back to `10.00` — and no order row exists or is marked
failed. -/
theorem C1_no_refund_on_failed_submission :
    (pkg_handler (α := Unit) ⟨[], 1, [("7", 10)]⟩ "7" "alice" "P1" 7 "MEMOAAAA0001"
        none (fun _ => [])).2 = Outcome.orderFailed ∧
    getBalance (pkg_handler (α := Unit) ⟨[], 1, [("7", 10)]⟩ "7" "alice" "P1" 7 "MEMOAAAA0001"
        none (fun _ => [])).1 "7" = 3 ∧
    (pkg_handler (α := Unit) ⟨[], 1, [("7", 10)]⟩ "7" "alice" "P1" 7 "MEMOAAAA0001"
        none (fun _ => [])).1.orders = [] ∧
    (3 : Rat) ≠ 10 := by
  refine ⟨?_, ?_, ?_, by norm_num⟩ <;>
    norm_num [pkg_handler, purchaseFlow, floorPrice, getBalance, updateBalance, List.find?]

/-- C2 (counterexample): the admin `/topup` branch upserts
`balance = balance + amt` with no sign or result check: crediting `-5` to a
user with no balance row creates a record whose stored balance is `-5 < 0`;
nothing is rejected. -/
theorem C2_admin_negative_credit_creates_negative_balance :
    (topup ⟨[], 1, []⟩ "9" "adminname" true (.adminCredit "42" (-5)) "MEMOAAAA0002").balances
      = [("42", -5)] ∧
    getBalance (topup ⟨[], 1, []⟩ "9" "adminname" true (.adminCredit "42" (-5)) "MEMOAAAA0002") "42" < 0 := by
  refine ⟨?_, ?_⟩ <;>
    norm_num [topup, adminTopup, getBalance, List.find?]

/-- C3 (counterexample): inserting a second order with a memo already present
in the store succeeds — the schema has no unique index on `memo` — leaving two
distinct orders that share the memo `"MEMOX"`. -/
theorem C3_duplicate_memo_insert_succeeds :
    ((insertOrder (insertOrder ⟨[], 1, []⟩ "1" "a" 10 "MEMOX" "P1") "2" "b" 11 "MEMOX" "P2").orders.length = 2) ∧
    (∃ o1 ∈ (insertOrder (insertOrder ⟨[], 1, []⟩ "1" "a" 10 "MEMOX" "P1") "2" "b" 11 "MEMOX" "P2").orders,
     ∃ o2 ∈ (insertOrder (insertOrder ⟨[], 1, []⟩ "1" "a" 10 "MEMOX" "P1") "2" "b" 11 "MEMOX" "P2").orders,
       o1.id ≠ o2.id ∧ o1.memo = o2.memo) := by
  refine ⟨by norm_num [insertOrder],
    ⟨1, "1", "a", 10, "MEMOX", "P1", false, none⟩, ?_,
    ⟨2, "2", "b", 11, "MEMOX", "P2", false, none⟩, ?_, by norm_num, rfl⟩ <;>
    simp [insertOrder]

/-- C6 (counterexample): `/topup 1` — a top-up request for `1.00` — stores an
order whose `amount` is `1.00`, below the `5.00` minimum: the plain top-up
path applies no minimum-payment floor. -/
theorem C6_topup_request_stores_below_minimum :
    (topup ⟨[], 1, []⟩ "7" "u" false (.request 1) "MEMOAAAA0003").orders
      = [⟨1, "7", "u", 1, "MEMOAAAA0003", "TOPUP", false, none⟩] ∧
    (1 : Rat) < 5 := by
  exact ⟨rfl, by norm_num⟩

/-- C7 (counterexample): user `"7"` holds an unpaid order for plan `"P1"` with
memo `"OLDMEMO"`; a later balance-funded purchase of the same plan (provider
accepts with order number `"ORD1"`, fresh memo `"NEWMEMO"`) overwrites the
stored memo of that pre-existing order: the memo assigned at creation is not
immutable. -/
theorem C7_unpaid_order_memo_overwritten :
    (pkg_handler (α := Unit) ⟨[⟨1, "7", "u", 7, "OLDMEMO", "P1", false, none⟩], 2, [("7", 10)]⟩
        "7" "u" "P1" 7 "NEWMEMO" (some "ORD1") (fun _ => [])).1.orders
      = [⟨1, "7", "u", 7, "NEWMEMO", "P1", true, some "ORD1"⟩] ∧
    "NEWMEMO" ≠ "OLDMEMO" := by
  exact ⟨rfl, by decide⟩

/-- C10 (counterexample): a 200 reply whose body is the well-formed JSON
object `{"obj": {"esimList": 42}}` makes `query_esim_open` return `42` — the
raw `esimList` value, which is not a list. -/
theorem C10_nonlist_esimList_passed_through :
    query_esim_open (.reply 200 (some (.obj [("obj", .obj [("esimList", .num 42)])])))
      = .num 42 ∧
    (query_esim_open (.reply 200 (some (.obj [("obj", .obj [("esimList", .num 42)])])))).isList
      = false := by
  exact ⟨rfl, rfl⟩

/-!
## Helper lemmas about the store primitives
-/

/-- A balance read after `UPDATE balances SET balance=? WHERE user_id=?` gives
either the untouched old value (other row, or no row for `uid`) or the written
value. -/
theorem getBalance_updateBalance_or (db : DB) (uid u : String) (v : Rat) :
    getBalance (updateBalance db uid v) u = getBalance db u ∨
    getBalance (updateBalance db uid v) u = v := by
  have hcomp : ((fun p : String × Rat => decide (p.1 = u)) ∘
      (fun p : String × Rat => if p.1 = uid then (p.1, v) else p))
      = fun p : String × Rat => decide (p.1 = u) := by
    funext p
    by_cases hp : p.1 = uid <;> simp [hp]
  unfold getBalance updateBalance
  simp only [List.find?_map, hcomp]
  cases hf : db.balances.find? (fun p : String × Rat => decide (p.1 = u)) with
  | none => left; rfl
  | some p =>
      by_cases hp : p.1 = uid
      · right; simp [hp]
      · left; simp [hp]

/-- `insertOrder` touches only the `orders` table. -/
theorem getBalance_insertOrder (db : DB) (uid uname : String) (a : Rat)
    (m p u : String) : getBalance (insertOrder db uid uname a m p) u = getBalance db u :=
  rfl

/-- `markPaid` touches only the `orders` table. -/
theorem getBalance_markPaid (db : DB) (uid plan m ono u : String) :
    getBalance (markPaid db uid plan m ono) u = getBalance db u :=
  rfl

/-- The floored price is at least the 5.00 minimum. -/
theorem floorPrice_ge_five (p : Rat) : 5 ≤ floorPrice p := by
  unfold floorPrice; split <;> [exact le_refl 5; linarith [not_lt.mp (by assumption)]]

/-- The first component of either poll branch of the purchase flow is the
post-`markPaid` store. -/
theorem purchaseFlow_fst_ite {α : Type} (x : DB) (c : Bool) (a b : Outcome α) :
    ((if c then (x, a) else (x, b)) : DB × Outcome α).1 = x := by
  cases c <;> rfl

/-- C2 (amended): a purchase-handler run never drives any stored balance
negative — the deduction branch is taken only when the read balance covers
the floored price, and every other branch leaves the balances table
untouched.  (The admin credit path, by contrast, is unconditional: see the
counterexample.) -/
theorem C2_purchase_never_drives_balance_negative {α : Type} (db : DB)
    (uid uname plan : String) (price0 : Rat) (memo : String)
    (orderResult : Option String) (query : Nat → List α) (u : String)
    (h : 0 ≤ getBalance db u) :
    0 ≤ getBalance (pkg_handler db uid uname plan price0 memo orderResult query).1 u := by
  show 0 ≤ getBalance (purchaseFlow db uid uname plan price0 memo orderResult query).1 u
  unfold purchaseFlow
  by_cases hb : getBalance db uid < floorPrice price0
  · rw [if_pos hb]
    exact h
  · rw [if_neg hb]
    have hv : 0 ≤ getBalance db uid - floorPrice price0 := by
      have := not_lt.mp hb; linarith
    have hupd : 0 ≤ getBalance (updateBalance db uid (getBalance db uid - floorPrice price0)) u := by
      rcases getBalance_updateBalance_or db uid u (getBalance db uid - floorPrice price0) with he | he
      · rw [he]; exact h
      · rw [he]; exact hv
    cases orderResult with
    | none => exact hupd
    | some orderNo =>
        simp only [purchaseFlow_fst_ite]
        rw [getBalance_markPaid]
        exact hupd

/-- C2 witness: the amended theorem applied at a concrete store — user `"7"`
holds `10.00`, buys plan `"P1"` at `7.00`, the provider rejects — the
resulting balance of `"7"` is still non-negative. -/
theorem C2_purchase_never_drives_balance_negative_witness :
    0 ≤ getBalance (pkg_handler (α := Unit) ⟨[], 1, [("7", 10)]⟩ "7" "alice" "P1" 7
        "MEMOAAAA0004" none (fun _ => [])).1 "7" :=
  C2_purchase_never_drives_balance_negative ⟨[], 1, [("7", 10)]⟩ "7" "alice" "P1" 7
    "MEMOAAAA0004" none (fun _ => []) "7"
    (by norm_num [getBalance, List.find?])

/-- C3 (amended): order creation never fails on a memo collision — the orders
table has no unique index on `memo`, so an insert always stores exactly one
more row, and an insert whose memo is already present raises the number of
orders sharing that memo by one instead of being rejected.  (Memo uniqueness
rests only on the randomness of the 12-character `generate_memo` token.) -/
theorem C3_insert_ignores_memo_collision (db : DB) (uid uname : String)
    (amount : Rat) (memo plan : String) :
    (insertOrder db uid uname amount memo plan).orders.length = db.orders.length + 1 ∧
    ((insertOrder db uid uname amount memo plan).orders.filter (fun o => o.memo = memo)).length
      = (db.orders.filter (fun o => o.memo = memo)).length + 1 := by
  constructor
  · simp [insertOrder]
  · simp [insertOrder, List.filter_append]

/-- C6 (amended): every order row a plan-purchase handler run leaves in the
store either keeps the amount of a row that existed before the run, or is the
freshly inserted order, whose amount is the floored price and hence at least
`5.00`.  (The plain `/topup <amount>` request, by contrast, stores the raw
amount: see the counterexample.) -/
theorem C6_plan_handlers_floor_amount_at_five {α : Type} (db : DB)
    (uid uname plan : String) (price0 : Rat) (memo : String)
    (orderResult : Option String) (query : Nat → List α) :
    ∀ o ∈ (pkg_handler db uid uname plan price0 memo orderResult query).1.orders,
      (∃ o' ∈ db.orders, o.amount = o'.amount) ∨ 5 ≤ o.amount := by
  intro o ho
  have ho' : o ∈ (purchaseFlow db uid uname plan price0 memo orderResult query).1.orders := ho
  unfold purchaseFlow at ho'
  by_cases hb : getBalance db uid < floorPrice price0
  · rw [if_pos hb] at ho'
    rcases List.mem_append.mp ho' with hin | hnew
    · exact Or.inl ⟨o, hin, rfl⟩
    · right
      have : o = ⟨db.nextId, uid, uname, floorPrice price0, memo, plan, false, none⟩ :=
        List.mem_singleton.mp hnew
      rw [this]
      exact floorPrice_ge_five price0
  · rw [if_neg hb] at ho'
    cases orderResult with
    | none => exact Or.inl ⟨o, ho', rfl⟩
    | some orderNo =>
        rw [purchaseFlow_fst_ite] at ho'
        rcases List.mem_map.mp ho' with ⟨o', ho'mem, ho'eq⟩
        refine Or.inl ⟨o', ho'mem, ?_⟩
        rw [← ho'eq]
        by_cases hc : o'.user_id = uid ∧ o'.plan_id = plan ∧ o'.paid = false <;>
          simp [hc]

/-- C6 witness: the amended theorem applied to a purchase of a `2.00` plan by
a user with an empty store — the one order the run stores has the floored
amount, so it is at least `5.00`. -/
theorem C6_plan_handlers_floor_amount_at_five_witness :
    (∃ o' ∈ ([] : List OrderRow),
        (⟨1, "7", "u", 5, "MEMOAAAA0005", "P1", false, none⟩ : OrderRow).amount = o'.amount) ∨
    5 ≤ (⟨1, "7", "u", 5, "MEMOAAAA0005", "P1", false, none⟩ : OrderRow).amount :=
  C6_plan_handlers_floor_amount_at_five (α := Unit) ⟨[], 1, []⟩ "7" "u" "P1" 2
    "MEMOAAAA0005" none (fun _ => [])
    ⟨1, "7", "u", 5, "MEMOAAAA0005", "P1", false, none⟩
    (by norm_num [pkg_handler, purchaseFlow, floorPrice, getBalance, insertOrder, List.find?])

/-- C7 (amended): a paid order is never touched again — it survives any later
purchase-handler run unchanged, memo included; only the memo of an *unpaid*
order matching the purchase's user and plan is overwritten by the
balance-funded success path (see the counterexample). -/
theorem C7_paid_order_memo_immutable {α : Type} (db : DB)
    (uid uname plan : String) (price0 : Rat) (memo : String)
    (orderResult : Option String) (query : Nat → List α) (o : OrderRow)
    (ho : o ∈ db.orders) (hp : o.paid = true) :
    o ∈ (pkg_handler db uid uname plan price0 memo orderResult query).1.orders := by
  show o ∈ (purchaseFlow db uid uname plan price0 memo orderResult query).1.orders
  unfold purchaseFlow
  by_cases hb : getBalance db uid < floorPrice price0
  · rw [if_pos hb]
    exact List.mem_append_left _ ho
  · rw [if_neg hb]
    cases orderResult with
    | none => exact ho
    | some orderNo =>
        rw [purchaseFlow_fst_ite]
        have hfix : (if o.user_id = uid ∧ o.plan_id = plan ∧ o.paid = false then
            { o with memo := memo, order_no := some orderNo, paid := true } else o) = o := by
          simp [hp]
        exact hfix ▸ List.mem_map_of_mem _ ho

/-- C7 witness: a paid order (id 1, memo `"KEPTMEMO"`) survives a later
balance-funded purchase of the same plan untouched. -/
theorem C7_paid_order_memo_immutable_witness :
    (⟨1, "7", "u", 7, "KEPTMEMO", "P1", true, some "ORD0"⟩ : OrderRow) ∈
      (pkg_handler (α := Unit) ⟨[⟨1, "7", "u", 7, "KEPTMEMO", "P1", true, some "ORD0"⟩], 2, [("7", 10)]⟩
        "7" "u" "P1" 7 "MEMOAAAA0006" (some "ORD2") (fun _ => [])).1.orders :=
  C7_paid_order_memo_immutable ⟨[⟨1, "7", "u", 7, "KEPTMEMO", "P1", true, some "ORD0"⟩], 2, [("7", 10)]⟩
    "7" "u" "P1" 7 "MEMOAAAA0006" (some "ORD2") (fun _ => [])
    ⟨1, "7", "u", 7, "KEPTMEMO", "P1", true, some "ORD0"⟩
    (List.mem_singleton.mpr rfl) rfl

/-!
## Helper lemmas about the purchase flow branches and the polling loop
-/

/-- Branch equation: balance below the floored price — insert an order, return
payment instructions. -/
theorem purchaseFlow_await_eq {α : Type} (db : DB) (uid uname plan : String)
    (price0 : Rat) (memo : String) (orderResult : Option String)
    (query : Nat → List α) (hbal : getBalance db uid < floorPrice price0) :
    purchaseFlow db uid uname plan price0 memo orderResult query
      = (insertOrder db uid uname (floorPrice price0) memo plan,
         Outcome.awaitPayment memo (floorPrice price0)) := by
  unfold purchaseFlow
  rw [if_pos hbal]

/-- Branch equation: balance covers the floored price, provider submission
fails — only the deduction happened. -/
theorem purchaseFlow_funded_none_eq {α : Type} (db : DB) (uid uname plan : String)
    (price0 : Rat) (memo : String) (query : Nat → List α)
    (hbal : ¬ getBalance db uid < floorPrice price0) :
    purchaseFlow db uid uname plan price0 memo none query
      = (updateBalance db uid (getBalance db uid - floorPrice price0),
         Outcome.orderFailed) := by
  unfold purchaseFlow
  rw [if_neg hbal]

/-- Branch equation: balance covers the floored price, provider submission
succeeds — deduct, mark unpaid rows paid, poll. -/
theorem purchaseFlow_funded_some_eq {α : Type} (db : DB) (uid uname plan : String)
    (price0 : Rat) (memo orderNo : String) (query : Nat → List α)
    (hbal : ¬ getBalance db uid < floorPrice price0) :
    purchaseFlow db uid uname plan price0 memo (some orderNo) query
      = (if (pollEsim query).profiles.isEmpty
         then (markPaid (updateBalance db uid (getBalance db uid - floorPrice price0))
                 uid plan memo orderNo,
               Outcome.profilesPending orderNo)
         else (markPaid (updateBalance db uid (getBalance db uid - floorPrice price0))
                 uid plan memo orderNo,
               Outcome.profilesDelivered orderNo (pollEsim query).profiles)) := by
  unfold purchaseFlow
  rw [if_neg hbal]

/-- The polling loop makes at most as many query attempts as its budget. -/
theorem pollAux_attempts_le {α : Type} (q : Nat → List α) (n : Nat) :
    ∀ i, (pollAux q i n).attempts ≤ n := by
  induction n with
  | zero => intro i; exact Nat.le_refl 0
  | succ n ih =>
      intro i
      simp only [pollAux]
      by_cases h : (q i).isEmpty
      · rw [if_pos h]
        exact Nat.succ_le_succ (ih (i + 1))
      · rw [if_neg h]
        exact Nat.succ_le_succ (Nat.zero_le n)

/-- When every attempt of the budget comes back empty, the loop returns no
profiles, uses the whole budget and sleeps after every failed attempt. -/
theorem pollAux_all_empty {α : Type} (q : Nat → List α) (n : Nat) :
    ∀ i, (∀ j, j < n → q (i + j) = []) →
      pollAux q i n = ⟨[], n, pollRetrySleepSeconds * n⟩ := by
  induction n with
  | zero => intro i _; rfl
  | succ n ih =>
      intro i h
      have h0 : q i = [] := by simpa using h 0 (Nat.succ_pos n)
      have hrest : ∀ j, j < n → q (i + 1 + j) = [] := by
        intro j hj
        have hidx : i + 1 + j = i + (j + 1) := by omega
        rw [hidx]
        exact h (j + 1) (Nat.succ_lt_succ hj)
      simp only [pollAux]
      rw [h0]
      simp only [List.isEmpty_nil, if_true, ih (i + 1) hrest]
      simp [Nat.mul_succ]

/-- When attempt `k` is the first non-empty one within the budget, the loop
returns its result after `k + 1` attempts, with one fixed sleep after each of
the `k` failed attempts. -/
theorem pollAux_first_nonempty {α : Type} (q : Nat → List α) :
    ∀ k n i, k < n → (∀ j, j < k → q (i + j) = []) → q (i + k) ≠ [] →
      pollAux q i n = ⟨q (i + k), k + 1, pollRetrySleepSeconds * k⟩ := by
  intro k
  induction k with
  | zero =>
      intro n i hk _ hne
      cases n with
      | zero => omega
      | succ m =>
          simp only [pollAux]
          rw [Nat.add_zero] at hne
          rw [if_neg (by simpa using hne)]
          simp
  | succ k ih =>
      intro n i hk hbef hne
      cases n with
      | zero => omega
      | succ m =>
          have h0 : q i = [] := by simpa using hbef 0 (Nat.succ_pos k)
          have hidx : i + 1 + k = i + (k + 1) := by omega
          have hbef' : ∀ j, j < k → q (i + 1 + j) = [] := by
            intro j hj
            have hidx' : i + 1 + j = i + (j + 1) := by omega
            rw [hidx']
            exact hbef (j + 1) (Nat.succ_lt_succ hj)
          have hne' : q (i + 1 + k) ≠ [] := by
            rwa [hidx]
          simp only [pollAux]
          rw [h0]
          simp only [List.isEmpty_nil, if_true, ih m (i + 1) (by omega) hbef' hne']
          rw [hidx]
          simp [Nat.mul_succ]

/-- C8: after a successful provider submission the allocation poll makes at
most 15 attempts with a fixed 2-second sleep after each failed attempt; the
first non-empty query result within the budget is returned to the user;
when the whole budget comes back empty the handler leaves the store exactly
as the submission recorded it (rows marked paid with the provider order
number — the pending state) and tells the user to re-check later
(`profilesPending`), not that the order failed. -/
theorem C8_poll_bounded_and_exhaustion_not_failure {α : Type} (query : Nat → List α)
    (db : DB) (uid uname plan : String) (price0 : Rat) (memo orderNo : String)
    (hbal : ¬ getBalance db uid < floorPrice price0) :
    (pollEsim query).attempts ≤ pollRetryBudget ∧
    (∀ k, k < pollRetryBudget → (∀ j, j < k → query j = []) → query k ≠ [] →
      (pollEsim query).profiles = query k ∧
      (pollEsim query).attempts = k + 1 ∧
      (pollEsim query).sleepSeconds = pollRetrySleepSeconds * k ∧
      (pkg_handler db uid uname plan price0 memo (some orderNo) query).2
        = Outcome.profilesDelivered orderNo (query k)) ∧
    ((∀ j, j < pollRetryBudget → query j = []) →
      (pollEsim query).profiles = [] ∧
      (pollEsim query).attempts = pollRetryBudget ∧
      (pollEsim query).sleepSeconds = pollRetrySleepSeconds * pollRetryBudget ∧
      (pkg_handler db uid uname plan price0 memo (some orderNo) query).2
        = Outcome.profilesPending orderNo ∧
      (pkg_handler db uid uname plan price0 memo (some orderNo) query).1
        = markPaid (updateBalance db uid (getBalance db uid - floorPrice price0))
            uid plan memo orderNo) := by
  refine ⟨pollAux_attempts_le query pollRetryBudget 0, ?_, ?_⟩
  · intro k hk hbef hne
    have hpoll : pollEsim query = ⟨query k, k + 1, pollRetrySleepSeconds * k⟩ := by
      have h := pollAux_first_nonempty query k pollRetryBudget 0 hk
        (fun j hj => by simpa using hbef j hj) (by simpa using hne)
      simpa [pollEsim] using h
    have hemp : (pollEsim query).profiles.isEmpty = false := by
      rw [hpoll]
      cases hq : query k with
      | nil => exact absurd hq hne
      | cons a l => rfl
    refine ⟨by rw [hpoll], by rw [hpoll], by rw [hpoll], ?_⟩
    show (purchaseFlow db uid uname plan price0 memo (some orderNo) query).2 = _
    rw [purchaseFlow_funded_some_eq db uid uname plan price0 memo orderNo query hbal,
      if_neg (by simp [hemp]), hpoll]
  · intro hall
    have hpoll : pollEsim query
        = ⟨[], pollRetryBudget, pollRetrySleepSeconds * pollRetryBudget⟩ := by
      have h := pollAux_all_empty query pollRetryBudget 0
        (fun j hj => by simpa using hall j hj)
      simpa [pollEsim] using h
    have hemp : (pollEsim query).profiles.isEmpty = true := by rw [hpoll]; rfl
    refine ⟨by rw [hpoll], by rw [hpoll], by rw [hpoll], ?_, ?_⟩
    · show (purchaseFlow db uid uname plan price0 memo (some orderNo) query).2 = _
      rw [purchaseFlow_funded_some_eq db uid uname plan price0 memo orderNo query hbal,
        if_pos hemp]
    · show (purchaseFlow db uid uname plan price0 memo (some orderNo) query).1 = _
      rw [purchaseFlow_funded_some_eq db uid uname plan price0 memo orderNo query hbal,
        if_pos hemp]

/-- C8 witness: the theorem applied to a funded purchase whose 15 allocation
queries all come back empty — the poll stays within budget and the handler
reports the pending state. -/
theorem C8_poll_bounded_and_exhaustion_not_failure_witness :
    (pollEsim (fun _ : Nat => ([] : List Unit))).attempts ≤ pollRetryBudget ∧
    (pkg_handler (α := Unit) ⟨[], 1, [("7", 10)]⟩ "7" "u" "P1" 7 "MEMOAAAA0007"
        (some "ORD7") (fun _ => [])).2 = Outcome.profilesPending "ORD7" :=
  ⟨(C8_poll_bounded_and_exhaustion_not_failure (fun _ => []) ⟨[], 1, [("7", 10)]⟩
      "7" "u" "P1" 7 "MEMOAAAA0007" "ORD7"
      (by norm_num [getBalance, floorPrice, List.find?])).1,
   ((C8_poll_bounded_and_exhaustion_not_failure (fun _ => []) ⟨[], 1, [("7", 10)]⟩
      "7" "u" "P1" 7 "MEMOAAAA0007" "ORD7"
      (by norm_num [getBalance, floorPrice, List.find?])).2.2
      (fun _ _ => rfl)).2.2.2.1⟩

/-- C9: a balance-funded purchase inserts no order row — the success path only
runs `UPDATE orders ... WHERE user_id=? AND plan_id=? AND paid=0`.  The row
count is unchanged; every pre-existing unpaid row of this user and plan is
marked paid with the fresh memo and provider order number; when no such row
exists the orders table is untouched, so the provider order number is not
persisted, and if the user also has no paid row with an order number, the
`/check` query finds no order. -/
theorem C9_funded_purchase_updates_only_existing_rows {α : Type} (db : DB)
    (uid uname plan : String) (price0 : Rat) (memo orderNo : String)
    (query : Nat → List α)
    (hbal : ¬ getBalance db uid < floorPrice price0) :
    (pkg_handler db uid uname plan price0 memo (some orderNo) query).1.orders.length
      = db.orders.length ∧
    (∀ o ∈ db.orders, o.user_id = uid → o.plan_id = plan → o.paid = false →
      ({ o with memo := memo, order_no := some orderNo, paid := true } : OrderRow)
        ∈ (pkg_handler db uid uname plan price0 memo (some orderNo) query).1.orders) ∧
    ((∀ o ∈ db.orders, ¬(o.user_id = uid ∧ o.plan_id = plan ∧ o.paid = false)) →
      (pkg_handler db uid uname plan price0 memo (some orderNo) query).1.orders
        = db.orders) ∧
    ((∀ o ∈ db.orders, ¬(o.user_id = uid ∧ o.plan_id = plan ∧ o.paid = false)) →
      (∀ o ∈ db.orders, ¬(o.user_id = uid ∧ o.paid = true ∧ o.order_no ≠ none)) →
      checkLastOrder (pkg_handler db uid uname plan price0 memo (some orderNo) query).1 uid
        = none) := by
  have hfst : (pkg_handler (α := α) db uid uname plan price0 memo (some orderNo) query).1
      = markPaid (updateBalance db uid (getBalance db uid - floorPrice price0))
          uid plan memo orderNo := by
    show (purchaseFlow db uid uname plan price0 memo (some orderNo) query).1 = _
    rw [purchaseFlow_funded_some_eq db uid uname plan price0 memo orderNo query hbal]
    split <;> rfl
  rw [hfst]
  have hmap : (markPaid (updateBalance db uid (getBalance db uid - floorPrice price0))
      uid plan memo orderNo).orders
      = db.orders.map (fun o =>
          if o.user_id = uid ∧ o.plan_id = plan ∧ o.paid = false then
            { o with memo := memo, order_no := some orderNo, paid := true }
          else o) := rfl
  have hself : (∀ o ∈ db.orders, ¬(o.user_id = uid ∧ o.plan_id = plan ∧ o.paid = false)) →
      (markPaid (updateBalance db uid (getBalance db uid - floorPrice price0))
        uid plan memo orderNo).orders = db.orders := by
    intro hno
    rw [hmap]
    have : ∀ o ∈ db.orders,
        (if o.user_id = uid ∧ o.plan_id = plan ∧ o.paid = false then
          ({ o with memo := memo, order_no := some orderNo, paid := true } : OrderRow)
        else o) = id o := by
      intro o ho
      simp [hno o ho]
    rw [List.map_congr_left this, List.map_id]
  refine ⟨?_, ?_, hself, ?_⟩
  · rw [hmap]
    exact List.length_map _ _
  · intro o ho h1 h2 h3
    rw [hmap]
    have hfo : (if o.user_id = uid ∧ o.plan_id = plan ∧ o.paid = false then
        ({ o with memo := memo, order_no := some orderNo, paid := true } : OrderRow)
      else o) = { o with memo := memo, order_no := some orderNo, paid := true } :=
      if_pos ⟨h1, h2, h3⟩
    exact hfo ▸ List.mem_map_of_mem _ ho
  · intro hno hpaid
    unfold checkLastOrder
    rw [hself hno]
    have hfil : db.orders.filter
        (fun o => decide (o.user_id = uid ∧ o.paid = true ∧ o.order_no ≠ none)) = [] := by
      rw [List.filter_eq_nil_iff]
      intro o ho
      simpa using hpaid o ho
    rw [hfil]
    rfl

/-- C9 witness: the theorem applied to a user with balance `10.00`, no order
rows at all, buying plan `"P1"` at `7.00` with a successful submission — the
`/check` query afterwards finds no order. -/
theorem C9_funded_purchase_updates_only_existing_rows_witness :
    checkLastOrder (pkg_handler (α := Unit) ⟨[], 1, [("7", 10)]⟩ "7" "u" "P1" 7
        "MEMOAAAA0008" (some "ORD9") (fun _ => [])).1 "7" = none :=
  (C9_funded_purchase_updates_only_existing_rows ⟨[], 1, [("7", 10)]⟩ "7" "u" "P1" 7
      "MEMOAAAA0008" "ORD9" (fun _ => [])
      (by norm_num [getBalance, floorPrice, List.find?])).2.2.2
    (fun o ho => absurd ho (List.not_mem_nil o))
    (fun o ho => absurd ho (List.not_mem_nil o))

/-- A non-empty token is never contained in the empty note. -/
theorem strContains_empty_hay (memo : String) (h : memo ≠ "") :
    strContains "" memo = false := by
  unfold strContains containsChars
  cases hm : memo.data with
  | nil => exact absurd (String.ext (by rw [hm])) h
  | cons c cs => rfl

/-- Step equations for the spec-side first-match rule. -/
theorem specMatchPayment_cons_neg (memo : String) (expected : Rat) (tx : TronTx)
    (rest : List TronTx) (h : specTxMatches memo expected tx = false) :
    specMatchPayment memo expected (tx :: rest) = specMatchPayment memo expected rest := by
  unfold specMatchPayment
  rw [List.find?_cons_of_neg _ (by simp [h])]

/-- Step equation: a matching head transaction is the one the spec rule
accepts. -/
theorem specMatchPayment_cons_pos (memo : String) (expected : Rat) (tx : TronTx)
    (rest : List TronTx) (h : specTxMatches memo expected tx = true) :
    specMatchPayment memo expected (tx :: rest) = tx.amountStr.getD 0 / 1000000 := by
  unfold specMatchPayment
  rw [List.find?_cons_of_pos _ h]

/-- The scan loop of `check_tron_payment` computes exactly the spec's
first-match rule, provided the memo is non-empty (so Python's falsy-note skip
coincides with "does not contain the memo") and every memo-hit within the
scanned window carries a parseable amount (so the abort-with-`0.0` exception
path is not taken). -/
theorem scanTronTxs_eq_spec (memo : String) (expected : Rat) (hmemo : memo ≠ "") :
    ∀ l : List TronTx,
      (∀ tx ∈ l, ∀ s, tx.note = some s → strContains s memo = true →
        tx.amountStr ≠ none) →
      scanTronTxs memo expected l = specMatchPayment memo expected l := by
  intro l
  induction l with
  | nil => intro _; rfl
  | cons tx rest ih =>
      intro hwf
      have hwfrest : ∀ t ∈ rest, ∀ s, t.note = some s → strContains s memo = true →
          t.amountStr ≠ none :=
        fun t ht => hwf t (List.mem_cons_of_mem _ ht)
      cases hnote : tx.note with
      | none =>
          have hscan : scanTronTxs memo expected (tx :: rest)
              = scanTronTxs memo expected rest := by
            simp [scanTronTxs, hnote]
          rw [hscan, specMatchPayment_cons_neg memo expected tx rest
            (by simp [specTxMatches, hnote])]
          exact ih hwfrest
      | some s =>
          by_cases hc : strContains s memo = true
          · have hs : s ≠ "" := by
              intro he
              rw [he, strContains_empty_hay memo hmemo] at hc
              exact Bool.false_ne_true hc
            cases hamt : tx.amountStr with
            | none => exact absurd hamt (hwf tx (List.mem_cons_self tx rest) s hnote hc)
            | some raw =>
                by_cases htol : |raw / 1000000 - expected| < 1 / 100
                · have htol' : |raw / 1000000 - expected| < 100⁻¹ := by rwa [one_div] at htol
                  have hscan : scanTronTxs memo expected (tx :: rest) = raw / 1000000 := by
                    simp [scanTronTxs, hnote, hamt, hs, hc, htol']
                  rw [hscan, specMatchPayment_cons_pos memo expected tx rest
                    (by simp [specTxMatches, hnote, hamt, hc, htol']), hamt]
                  rfl
                · have htol' : ¬ |raw / 1000000 - expected| < 100⁻¹ := by rwa [one_div] at htol
                  have hscan : scanTronTxs memo expected (tx :: rest)
                      = scanTronTxs memo expected rest := by
                    simp [scanTronTxs, hnote, hamt, hs, hc, htol']
                  rw [hscan, specMatchPayment_cons_neg memo expected tx rest
                    (by simp [specTxMatches, hnote, hamt, htol'])]
                  exact ih hwfrest
          · have hscan : scanTronTxs memo expected (tx :: rest)
                = scanTronTxs memo expected rest := by
              simp [scanTronTxs, hnote, hc]
            rw [hscan, specMatchPayment_cons_neg memo expected tx rest
              (by simp [specTxMatches, hnote, hc])]
            exact ih hwfrest

/-- C4: the payment matcher scans only the (at most 20) transactions the
limited feed request returns; it returns the display-unit amount of the first
transaction of that window whose note contains the memo and whose amount lies
within the `0.01` tolerance of the expectation, `0` when none matches, and
`0` on any feed-fetch failure — the incoming feed outcome fully determines
the result, no exception escapes.  (Hypotheses: the memo is a non-empty token
— `generate_memo` always produces 12 characters — and the memo-hits of the
window carry parseable amounts, excluding the abort path the claim's
"malformed response" arm covers.) -/
theorem C4_matcher_window_first_match_tolerance (memo : String) (expected : Rat)
    (txs : List TronTx) (hmemo : memo ≠ "")
    (hwf : ∀ tx ∈ txs.take tronFetchLimit, ∀ s, tx.note = some s →
      strContains s memo = true → tx.amountStr ≠ none) :
    check_tron_payment memo expected FeedResult.fetchError = 0 ∧
    check_tron_payment memo expected (.ok txs)
      = specMatchPayment memo expected (txs.take tronFetchLimit) :=
  ⟨rfl, scanTronTxs_eq_spec memo expected hmemo _ hwf⟩

/-- C4 witness: a feed whose single transaction embeds the memo `"ABC"` in a
larger note and transfers `10000000` raw units (`10.00` display units) against
an expectation of `10.00` — matcher and spec rule agree, and the fetch-error
result is `0`. -/
theorem C4_matcher_window_first_match_tolerance_witness :
    check_tron_payment "ABC" 10 FeedResult.fetchError = 0 ∧
    check_tron_payment "ABC" 10
        (.ok [⟨some "payment ABC thanks", some 10000000⟩])
      = specMatchPayment "ABC" 10
          ([⟨some "payment ABC thanks", some 10000000⟩].take tronFetchLimit) :=
  C4_matcher_window_first_match_tolerance "ABC" 10
    [⟨some "payment ABC thanks", some 10000000⟩]
    (by decide)
    (by
      intro tx htx s hnote hcont
      have htx' : tx = ⟨some "payment ABC thanks", some 10000000⟩ := by
        simpa [tronFetchLimit] using htx
      subst htx'
      simp)

/-- C5: `ReconcileOrder` is idempotent on settled orders — when the stored
order is already `paid`, any number of further reconciliation calls leave the
ledger exactly as it is, so at most one balance credit can ever come out of
reconciling one order.  (`ReconcileOrder` is modelled from spec §4.4; no
reconciliation path exists in `src/bot.py`.) -/
theorem C5_reconcile_noop_on_paid_order (matcher : String → Rat → Rat)
    (st : SpecLedger) (oid : Nat) (o : SpecOrder)
    (hfind : st.orders.find? (fun o => o.id = oid) = some o)
    (hpaid : o.status = SpecStatus.paid) :
    ∀ n : Nat, (fun s => ReconcileOrder matcher s oid)^[n] st = st := by
  have hstep : ReconcileOrder matcher st oid = st := by
    unfold ReconcileOrder
    rw [hfind]
    simp [hpaid]
  intro n
  induction n with
  | zero => rfl
  | succ n ih => rw [Function.iterate_succ_apply, hstep, ih]

/-- C5 witness: reconciling a ledger whose only order is already `paid` twice
(with a matcher that would match `10.00`) changes nothing. -/
theorem C5_reconcile_noop_on_paid_order_witness :
    (fun s => ReconcileOrder (fun _ _ => (10 : Rat)) s 1)^[2]
        ⟨[⟨1, "7", 10, "MEMOAAAA0009", SpecStatus.paid⟩], [("7", 10)]⟩
      = ⟨[⟨1, "7", 10, "MEMOAAAA0009", SpecStatus.paid⟩], [("7", 10)]⟩ :=
  C5_reconcile_noop_on_paid_order (fun _ _ => 10)
    ⟨[⟨1, "7", 10, "MEMOAAAA0009", SpecStatus.paid⟩], [("7", 10)]⟩ 1
    ⟨1, "7", 10, "MEMOAAAA0009", SpecStatus.paid⟩ (by rfl) rfl 2

/-- C10 (amended): `query_esim_open` never lets an exception escape and
returns the empty list on every enumerated failure — network error, 4xx/5xx
status, non-JSON body, non-object body, missing or non-object `obj`, missing
`esimList` — but when the reply carries an `esimList` field, that field's
value is passed through as-is, so the result is a list exactly unless the
provider sends a non-list `esimList`. -/
theorem C10_query_list_except_nonlist_passthrough (resp : HttpOutcome) :
    (query_esim_open resp).isList = true ∨
    (∃ status fields f2 v, resp = HttpOutcome.reply status (some (Json.obj fields)) ∧
      ¬ 400 ≤ status ∧ jsonGet fields "obj" = some (Json.obj f2) ∧
      jsonGet f2 "esimList" = some v ∧ query_esim_open resp = v) := by
  cases resp with
  | netError => left; rfl
  | reply status body =>
      by_cases hst : 400 ≤ status
      · left; simp [query_esim_open, hst, Json.isList]
      · cases body with
        | none => left; simp [query_esim_open, hst, Json.isList]
        | some j =>
            cases j with
            | null => left; simp [query_esim_open, hst, Json.isList]
            | bool b => left; simp [query_esim_open, hst, Json.isList]
            | num q => left; simp [query_esim_open, hst, Json.isList]
            | str s => left; simp [query_esim_open, hst, Json.isList]
            | arr xs => left; simp [query_esim_open, hst, Json.isList]
            | obj fields =>
                cases hobj : jsonGet fields "obj" with
                | none => left; simp [query_esim_open, hst, hobj, Json.isList,
                    show jsonGet [] "esimList" = none from rfl]
                | some jv =>
                    cases jv with
                    | null => left; simp [query_esim_open, hst, hobj, Json.isList]
                    | bool b => left; simp [query_esim_open, hst, hobj, Json.isList]
                    | num q => left; simp [query_esim_open, hst, hobj, Json.isList]
                    | str s => left; simp [query_esim_open, hst, hobj, Json.isList]
                    | arr xs => left; simp [query_esim_open, hst, hobj, Json.isList]
                    | obj f2 =>
                        cases hlist : jsonGet f2 "esimList" with
                        | none =>
                            left
                            simp [query_esim_open, hst, hobj, hlist, Json.isList]
                        | some v =>
                            by_cases hv : v.isList = true
                            · left
                              simp [query_esim_open, hst, hobj, hlist, hv]
                            · right
                              exact ⟨status, fields, f2, v, rfl, hst, hobj, hlist,
                                by simp [query_esim_open, hst, hobj, hlist]⟩
